import Mathlib

/-!
Verification development for the claudium aquarium engine: a shallow
embedding of the event decoder (`src/claudium/entities.py`), the ingestion
queue (`server.py`) and the world-model mutations (`src/claudium/aquarium.py`),
together with theorems settling the specified properties.

Python floats are modelled as `ℚ` (no claim depends on float rounding),
Python strings as `String` or `List Char` where character-level splitting
matters, and random draws are passed in explicitly as oracle parameters.
-/

namespace Claudium

/-- A parsed JSON value, the result type of the external `json.loads`.
Objects are association lists (JSON decoding keeps one value per key). -/
inductive JsonValue where
  | null
  | bool (b : Bool)
  | num (q : ℚ)
  | str (s : String)
  | arr (items : List JsonValue)
  | obj (fields : List (String × JsonValue))

/-- Outcome of running a piece of Python code: a returned value or a
raised exception (identified by its class name). -/
inductive PyResult (α : Type) where
  | ok (val : α)
  | raised (exc : String)

/-- `dict.get(key)` on a JSON object: the value bound to `key`, if any. -/
def pyGet : List (String × JsonValue) → String → Option JsonValue
  | [], _ => none
  | (k, v) :: rest, key => if k = key then some v else pyGet rest key

/-- `dict.get(key, default)` on a JSON object. -/
def pyGetD (fields : List (String × JsonValue)) (key : String) (dflt : JsonValue) : JsonValue :=
  (pyGet fields key).getD dflt

/-- Python truthiness of a JSON value (`if not kind: ...`). -/
def pyTruthy : JsonValue → Bool
  | .null => false
  | .bool b => b
  | .num q => q != 0
  | .str s => s != ""
  | .arr l => !l.isEmpty
  | .obj l => !l.isEmpty

/-- The `Event` dataclass as filled in by `parse_event`: the raw JSON values
returned by `d.get(...)` are stored unchecked (Python does not enforce the
field annotations), so each field is a `JsonValue`. -/
structure PyEvent where
  kind : JsonValue
  agent_id : JsonValue
  agent_type : JsonValue
  description : JsonValue
  error : JsonValue
  tool_name : JsonValue
  tool_input_summary : JsonValue
  success : JsonValue
  task_subject : JsonValue
  timestamp : JsonValue

/-- `parse_event` from `entities.py`. The argument is the outcome of
`json.loads` on the raw line: `none` models a `json.JSONDecodeError`
(caught, returning `None`). On a non-object JSON value the Python code
evaluates `d.get("event")` on a value with no `get` attribute, raising an
uncaught `AttributeError`; on an object it returns `None` for a missing or
falsy `event` discriminator, and otherwise builds the event with
`d.get(...)` defaults for absent fields. -/
def parse_event : Option JsonValue → PyResult (Option PyEvent)
  | none => .ok none
  | some (.obj d) =>
    match pyGet d "event" with
    | none => .ok none
    | some kind =>
      if pyTruthy kind then
        .ok (some {
          kind := kind,
          agent_id := pyGetD d "agent_id" (.str ""),
          agent_type := pyGetD d "agent_type" (.str ""),
          description := pyGetD d "description" (.str ""),
          error := pyGetD d "error" (.bool false),
          tool_name := pyGetD d "tool_name" (.str ""),
          tool_input_summary := pyGetD d "tool_input_summary" (.str ""),
          success := pyGetD d "success" (.bool true),
          task_subject := pyGetD d "task_subject" (.str ""),
          timestamp := pyGetD d "timestamp" (.num 0) })
      else .ok none
  | some _ => .raised "AttributeError"

/-- `EventServer._queue.append` on the `deque(maxlen=500)`: appending to a
full deque silently evicts the oldest (leftmost) entry. -/
def enqueue (q : List PyEvent) (ev : PyEvent) : List PyEvent :=
  let q1 := q ++ [ev]
  if 500 < q1.length then q1.drop (q1.length - 500) else q1

/-- `EventServer.drain_events`: atomically returns the queue's contents in
arrival order and leaves the queue empty. -/
def drain_events (q : List PyEvent) : List PyEvent × List PyEvent := (q, [])

/-- Auxiliary state for `splitlines`: characters of the current line. -/
def splitlinesAux : List Char → List Char → List (List Char)
  | [], acc => if acc.isEmpty then [] else [acc]
  | c :: rest, acc =>
    if c = '\n' then acc :: splitlinesAux rest [] else splitlinesAux rest (acc ++ [c])

/-- Python `str.splitlines()` restricted to the LF terminator used by the
wire protocol: no empty final line for a trailing newline, and a trailing
segment without a terminator is kept as a line. -/
def splitlines (s : List Char) : List (List Char) := splitlinesAux s []

/-- Characters removed by Python `str.strip()`. -/
def pySpace (c : Char) : Bool :=
  c = ' ' || c = '\t' || c = '\n' || c = '\r' || c = '\x0b' || c = '\x0c'

/-- Python `str.strip()`. -/
def pyStrip (s : List Char) : List Char :=
  ((s.dropWhile pySpace).reverse.dropWhile pySpace).reverse

/-- The per-line loop of `EventServer._handle_client`, parameterised by the
external `json.loads` (`loads line = none` models a decode error). Each
line is stripped, empty lines are skipped, decoded events are appended to
the queue under the lock. A raised exception escapes the `except OSError`
clause and kills the handler thread: the flag records the abort and the
remaining lines are never processed. -/
def processLines (loads : List Char → Option JsonValue) :
    List (List Char) → List PyEvent → List PyEvent × Bool
  | [], q => (q, false)
  | line :: rest, q =>
    let s := pyStrip line
    if s.isEmpty then processLines loads rest q
    else
      match parse_event (loads s) with
      | .raised _ => (q, true)
      | .ok none => processLines loads rest q
      | .ok (some ev) => processLines loads rest (enqueue q ev)

/-- `EventServer._handle_client` after EOF: the whole received buffer is
split on newlines (`buf.splitlines()`) and each line is processed. -/
def handle_client (loads : List Char → Option JsonValue) (buf : List Char)
    (q : List PyEvent) : List PyEvent :=
  (processLines loads (splitlines buf) q).1

/-- A concrete `json.loads` table for the lines used in the concrete
scenarios: it decodes exactly the records appearing there, as the real
`json.loads` would, and fails on everything else. -/
def loadsDemo (s : List Char) : Option JsonValue :=
  if s = "\x7b\"event\":\"a\"\x7d".toList then some (.obj [("event", .str "a")])
  else if s = "[1, 2]".toList then some (.arr [.num 1, .num 2])
  else if s = "\x7b\"event\":\"b\"\x7d".toList then some (.obj [("event", .str "b")])
  else if s = "\x7b\"event\":\"c\"\x7d".toList then some (.obj [("event", .str "c")])
  else none

/-- The event decoded from the line `{"event":"a"}`. -/
def pyEvA : PyEvent :=
  ⟨.str "a", .str "", .str "", .str "", .bool false, .str "", .str "", .bool true, .str "", .num 0⟩

/-- The event decoded from the line `{"event":"b"}`. -/
def pyEvB : PyEvent :=
  ⟨.str "b", .str "", .str "", .str "", .bool false, .str "", .str "", .bool true, .str "", .num 0⟩

/-- `AgentStatus` from `entities.py`. -/
inductive AgentStatus where
  | spawning
  | working
  | done
  | error
deriving DecidableEq, Repr

/-- `Bubble` from `entities.py`. -/
structure Bubble where
  x : ℚ
  y : ℚ
  char : Char
  age : Nat := 0
deriving DecidableEq, Repr

/-- `Fish` from `entities.py`; `start_time` (a wall-clock default in the
source) is an explicit value here. -/
structure Fish where
  agent_id : String
  label : String
  status : AgentStatus
  x : ℚ
  y : ℚ
  speed : ℚ
  art_idx : Nat
  direction : ℤ := 1
  bubbles : List Bubble := []
  alive : Bool := true
  flip : Bool := false
  start_time : ℚ := 0
  last_tool : String := ""
  last_tool_time : ℚ := 0
deriving DecidableEq, Repr

/-- `TaskCoral` from `entities.py`. -/
structure TaskCoral where
  subject : String
  x : ℤ
  completed : Bool := false
deriving DecidableEq, Repr

/-- `AmbientCreature` from `entities.py`. -/
structure AmbientCreature where
  kind : String
  x : ℚ
  y : ℚ
  speed : ℚ
  direction : ℤ := 1
deriving DecidableEq, Repr

/-- `EventLogEntry` from `entities.py`. -/
structure EventLogEntry where
  timestamp : ℚ
  kind : String
  detail : String
deriving DecidableEq, Repr

/-- `SessionStats` from `entities.py` (`tool_counts` as an association list). -/
structure SessionStats where
  tool_counts : List (String × Nat) := []
  total_events : Nat := 0
  error_count : Nat := 0
  session_start : ℚ := 0
deriving DecidableEq, Repr

/-- The `Event` dataclass as constructed by the simulation, the demo
generator and the tests: fields carry the values of their annotated types. -/
structure Event where
  kind : String
  agent_id : String := ""
  agent_type : String := ""
  description : String := ""
  error : Bool := false
  tool_name : String := ""
  tool_input_summary : String := ""
  success : Bool := true
  task_subject : String := ""
  timestamp : ℚ := 0
deriving DecidableEq, Repr

/-- Python `a or b` on strings (`""` is falsy). -/
def pyOrS (a b : String) : String := if a = "" then b else a

/-- Python `a or b` on floats (`0.0` is falsy). -/
def pyOrQ (a b : ℚ) : ℚ := if a = 0 then b else a

/-- `agent_type_to_art_idx` from `entities.py`. -/
def agent_type_to_art_idx (t : String) : Nat :=
  if t = "Explore" then 0
  else if t = "general-purpose" then 1
  else if t = "Plan" then 2
  else if t = "code-reviewer" then 2
  else if t = "code-simplifier" then 2
  else if t.startsWith "feature-dev:" then 3
  else if t.startsWith "superpowers:" then 3
  else 1

/-- Widths of the five `FISH_ARTS` entries in `entities.py`. -/
def fishArtWidths : List Nat := [7, 6, 7, 7, 15]

/-- `SURFACE_ROW` from `aquarium.py`. -/
def SURFACE_ROW : ℚ := 4

/-- The mutable world state of `Aquarium` (the fields the verified claims
touch; purely decorative collections such as clouds, seaweed and floor
decorations are independent of these and are omitted). -/
structure AqState where
  fishes : List Fish
  main_fish : Fish
  task_corals : List TaskCoral
  ambient_creatures : List AmbientCreature
  total_agents : Nat
  total_tools : Nat
  event_log : List EventLogEntry
  stats : SessionStats
  milestones_triggered : List String

/-- `Aquarium._update_fish`. Oracle parameters stand for the random draws:
`jit` for the 2% direction jitter, `em` for the 6% bubble emission with
horizontal offset `eoff` and character `ech`. The order matches the
source: position integration, working-fish bounds and jitter, bubble
emission, bubble ageing and filtering, done/error outward drift and
off-screen retirement, and finally the spawning→working promotion. -/
def updateFish (w : ℚ) (jit em : Bool) (eoff : ℚ) (ech : Char) (fish : Fish) : Fish :=
  let fw : ℚ := (fishArtWidths.getD fish.art_idx 0 : Nat)
  let x1 := fish.x + fish.speed * (fish.direction : ℚ)
  let dir1 : ℤ :=
    if fish.status = .working then
      let d : ℤ := if w - fw - 5 < x1 then -1 else if x1 < 5 then 1 else fish.direction
      if jit then -d else d
    else fish.direction
  let bubbles1 :=
    if fish.status = .working ∧ em then
      fish.bubbles ++ [{ x := (if dir1 = 1 then x1 + fw else x1) + eoff, y := fish.y, char := ech }]
    else fish.bubbles
  let bubbles2 :=
    (bubbles1.map (fun b => { b with y := b.y - 3/10, age := b.age + 1 })).filter
      (fun b => b.age < 20 && SURFACE_ROW < b.y)
  let dir2 : ℤ := if fish.status = .done ∨ fish.status = .error then 1 else dir1
  let alive2 := if (fish.status = .done ∨ fish.status = .error) ∧ w + 10 < x1 then false
                else fish.alive
  let status2 := if fish.status = .spawning ∧ 2 < x1 then .working else fish.status
  { fish with x := x1, direction := dir2, bubbles := bubbles2, alive := alive2, status := status2 }

/-- The per-tick retirement in `Aquarium.run`:
`self.fishes = [f for f in self.fishes if f.alive]`. -/
def pruneFishes (fs : List Fish) : List Fish := fs.filter (fun f => f.alive)

/-- The mutation `Aquarium._on_agent_stop` applies to a fish whose
`agent_id` matches the event. -/
def stopFish (err : Bool) (f : Fish) : Fish :=
  if err then { f with status := .error, flip := true, speed := 1/10 }
  else { f with status := .done, speed := max f.speed (3/5) }

/-- The loop body of `Aquarium._on_agent_stop` over `self.fishes`: every
fish with the matching `agent_id` is mutated (the loop has no `break`),
and `stats.error_count` is incremented once per mutated fish when the
event carries `error=True`. Returns the new list and the total increment. -/
def onAgentStopFishes (aid : String) (err : Bool) : List Fish → List Fish × Nat
  | [] => ([], 0)
  | f :: fs =>
    let r := onAgentStopFishes aid err fs
    if f.agent_id = aid then (stopFish err f :: r.1, (if err then 1 else 0) + r.2)
    else (f :: r.1, r.2)

/-- `Aquarium._on_agent_stop` at the state level. -/
def onAgentStop (ev : Event) (s : AqState) : AqState :=
  let r := onAgentStopFishes ev.agent_id ev.error s.fishes
  { s with fishes := r.1,
           stats := { s.stats with error_count := s.stats.error_count + r.2 } }

/-- The `for f in self.fishes: ... break` parent search in
`Aquarium._on_tool_start`: the first fish matching the `agent_id`. -/
def findParent (aid : String) : List Fish → Option Fish
  | [] => none
  | f :: fs => if f.agent_id = aid then some f else findParent aid fs

/-- In-place mutation of the first matching fish (the object found by the
`break` loop). -/
def updateFirstMatch (aid : String) (upd : Fish → Fish) : List Fish → List Fish
  | [] => []
  | f :: fs => if f.agent_id = aid then upd f :: fs else f :: updateFirstMatch aid upd fs

/-- The speech-bubble stamp `Aquarium._on_tool_start` applies to the
target fish: `last_tool = f"{tool_name}: {summary}"[:25]` with
`summary = tool_input_summary or tool_name`, and `last_tool_time = now`. -/
def toolStamp (tool tis : String) (now : ℚ) (f : Fish) : Fish :=
  { f with last_tool := (tool ++ ": " ++ pyOrS tis tool).take 25, last_tool_time := now }

/-- The fish-directed effect of `Aquarium._on_tool_start` (non-MCP path):
the first fish matching the event's `agent_id` gets the speech-bubble
stamp; with no match the always-present main fish is stamped instead.
Tool bubbles, stats counters and the probabilistic tool-creature spawn
touch other collections and leave every `Fish` unchanged. -/
def onToolStartFishes (aid tool tis : String) (now : ℚ) (fishes : List Fish)
    (mainF : Fish) : List Fish × Fish :=
  match findParent aid fishes with
  | some _ => (updateFirstMatch aid (toolStamp tool tis now) fishes, mainF)
  | none => (fishes, toolStamp tool tis now mainF)

/-- `Aquarium._on_task_completed`: the first marker with the event's
subject is marked completed in place (and the loop returns); otherwise a
new, already-completed marker is appended at an oracle x position. -/
def onTaskCompleted (subject : String) (newX : ℤ) : List TaskCoral → List TaskCoral
  | [] => [{ subject := subject, x := newX, completed := true }]
  | tc :: rest =>
    if tc.subject = subject then { tc with completed := true } :: rest
    else tc :: onTaskCompleted subject newX rest

/-- `Aquarium._on_agent_start`: a new spawning fish enters at x = −10
moving right; `ry`/`rs` are the random y position and speed draws. -/
def onAgentStart (ev : Event) (ry rs : ℚ) (s : AqState) : AqState :=
  { s with
    fishes := s.fishes ++ [{
      agent_id := ev.agent_id,
      label := pyOrS ev.description ev.agent_type,
      status := .spawning,
      x := -10,
      y := ry,
      speed := rs,
      art_idx := agent_type_to_art_idx ev.agent_type,
      direction := 1 }],
    total_agents := s.total_agents + 1 }

/-- The panel caption `Aquarium._record_event` derives from an event. -/
def eventDetail (ev : Event) : String :=
  if ev.kind = "agent_start" then ev.agent_type ++ ": " ++ pyOrS ev.description "started"
  else if ev.kind = "agent_stop" then
    ev.agent_type ++ ": " ++ (if ev.error then "ERROR" else "done")
  else if ev.kind = "tool_start" then
    ev.tool_name ++ ": " ++ pyOrS ev.tool_input_summary ev.tool_name
  else if ev.kind = "tool_end" then
    ev.tool_name ++ ": " ++ (if !ev.success then "fail" else "ok")
  else if ev.kind = "task_completed" then "task: " ++ ev.task_subject
  else if ev.kind = "milestone" then pyOrS ev.description "milestone reached"
  else ev.kind

/-- Appending to the event log with the 200-entry cap (oldest dropped). -/
def pushLog (log : List EventLogEntry) (e : EventLogEntry) : List EventLogEntry :=
  let lg := log ++ [e]
  if 200 < lg.length then lg.drop (lg.length - 200) else lg

/-- `Aquarium._record_event`: append the derived log entry (detail capped
at 50 characters, timestamp `ev.timestamp or time.time()` with `now` the
wall clock) and count the event. -/
def recordEvent (now : ℚ) (ev : Event) (s : AqState) : AqState :=
  { s with
    event_log := pushLog s.event_log
      { timestamp := pyOrQ ev.timestamp now, kind := ev.kind,
        detail := (eventDetail ev).take 50 },
    stats := { s.stats with total_events := s.stats.total_events + 1 } }

/-- An `AmbientCreature` built from one oracle draw (x, y, speed,
direction). -/
def mkAmbient (kind : String) (p : ℚ × ℚ × ℚ × ℤ) : AmbientCreature :=
  { kind := kind, x := p.1, y := p.2.1, speed := p.2.2.1, direction := p.2.2.2 }

/-- First block of `Aquarium._check_milestones`: at 100 cumulative tool
calls a one-time burst of 5 jellyfish plus a synthetic milestone log
entry, guarded by membership of `"tools_100"` in `milestones_triggered`.
`jd` gives the random draws for the spawned jellyfish, `tsT` the
`time.time()` stamp put on the synthetic event and `nowT` the clock
reading inside `_record_event`. -/
def checkMilestonesTools (jd : Nat → ℚ × ℚ × ℚ × ℤ) (tsT nowT : ℚ) (s : AqState) : AqState :=
  if 100 ≤ s.total_tools ∧ "tools_100" ∉ s.milestones_triggered then
    recordEvent nowT
      { kind := "milestone", timestamp := tsT,
        description := "100 tools reached! Ocean comes alive!" }
      { s with
        milestones_triggered := "tools_100" :: s.milestones_triggered,
        ambient_creatures := s.ambient_creatures ++
          (List.range 5).map (fun i => mkAmbient "jellyfish" (jd i)) }
  else s

/-- Second block of `Aquarium._check_milestones`: at 10 started agents a
one-time school of 4 ambient fish, guarded by `"agents_10"`. -/
def checkMilestonesAgents (fd : Nat → ℚ × ℚ × ℚ × ℤ) (tsA nowA : ℚ) (s : AqState) : AqState :=
  if 10 ≤ s.total_agents ∧ "agents_10" ∉ s.milestones_triggered then
    recordEvent nowA
      { kind := "milestone", timestamp := tsA,
        description := "10 agents spawned! Fish school appears!" }
      { s with
        milestones_triggered := "agents_10" :: s.milestones_triggered,
        ambient_creatures := s.ambient_creatures ++
          (List.range 4).map (fun i => mkAmbient "fish" (fd i)) }
  else s

/-- `Aquarium._check_milestones`: the tools block followed by the agents
block. -/
def checkMilestones (jd fd : Nat → ℚ × ℚ × ℚ × ℤ) (tsT nowT tsA nowA : ℚ)
    (s : AqState) : AqState :=
  checkMilestonesAgents fd tsA nowA (checkMilestonesTools jd tsT nowT s)

/-- The `agents_10` milestone cannot fire: either fewer than 10 agents ever
started, or it has already fired. Used to isolate the `tools_100` claim. -/
def agentsQuiet (s : AqState) : Prop :=
  s.total_agents < 10 ∨ "agents_10" ∈ s.milestones_triggered

/-- The `agent_start` record of the concrete scenario. -/
def evStartA : Event :=
  { kind := "agent_start", agent_id := "a1", agent_type := "Explore",
    description := "find endpoints" }

/-- The matching error-free `agent_stop` record. -/
def evStopA : Event := { kind := "agent_stop", agent_id := "a1", error := false }

/-- The main-agent turtle created by `_setup_main_fish`. -/
def mainFish0 : Fish :=
  { agent_id := "__main__", label := "Claude", status := .working,
    x := 40, y := 10, speed := 2/5, art_idx := 4 }

/-- A freshly initialised world state (before any event). -/
def aqState0 : AqState :=
  { fishes := [], main_fish := mainFish0, task_corals := [],
    ambient_creatures := [], total_agents := 0, total_tools := 0,
    event_log := [], stats := {}, milestones_triggered := [] }

/-- A fish that has already reached `done`. -/
def fishDoneA : Fish :=
  { agent_id := "a1", label := "find endpoints", status := .done,
    x := 20, y := 8, speed := 3/5, art_idx := 0 }

/-- First of two working fishes sharing an `agent_id`. -/
def fishB1 : Fish :=
  { agent_id := "dup", label := "b1", status := .working,
    x := 10, y := 8, speed := 1/2, art_idx := 0 }

/-- Second of two working fishes sharing an `agent_id`. -/
def fishB2 : Fish :=
  { agent_id := "dup", label := "b2", status := .working,
    x := 20, y := 9, speed := 1/2, art_idx := 1 }

/-- A spawning fish already close to the on-screen threshold. -/
def fishSpawnC : Fish :=
  { agent_id := "a1", label := "x", status := .spawning,
    x := 5, y := 8, speed := 1/2, art_idx := 0 }

/-- A retired (not-alive) fish awaiting pruning. -/
def fishDeadC : Fish := { fishDoneA with alive := false }

/-- A world state that has just crossed 100 cumulative tool calls. -/
def aqC9 : AqState := { aqState0 with total_tools := 100 }

/-- The same state after the `tools_100` milestone has fired. -/
def aqC9b : AqState := { aqC9 with milestones_triggered := ["tools_100"] }

/-- A fixed oracle draw for milestone-spawned creatures. -/
def jdC : Nat → ℚ × ℚ × ℚ × ℤ := fun _ => (5, 8, 1/25, 1)

/-- A mixed record as the hook sender actually produces them: some
optional fields present (`tool_name`, `timestamp`), the rest absent. -/
def dMix : List (String × JsonValue) :=
  [("event", .str "tool_start"), ("tool_name", .str "Bash"), ("timestamp", .num 1000)]

end Claudium

namespace Claudium

/- ───────────────────────── helper lemmas ───────────────────────── -/

theorem enqueue_drop_eq (es : List PyEvent) (e : PyEvent) :
    enqueue (es.drop (es.length - 500)) e = (es ++ [e]).drop ((es ++ [e]).length - 500) := by
  unfold enqueue
  by_cases h : es.length < 500
  · have h0 : es.length - 500 = 0 := by omega
    have h1 : (es ++ [e]).length - 500 = 0 := by simp; omega
    simp only [h0, h1, List.drop_zero]
    have : ¬ 500 < (es ++ [e]).length := by simp; omega
    simp [this]
  · push_neg at h
    have hlen : (es.drop (es.length - 500)).length = 500 := by
      rw [List.length_drop]; omega
    have hcond : 500 < (es.drop (es.length - 500) ++ [e]).length := by
      simp [hlen]
    rw [if_pos hcond]
    have hdlen : (es.drop (es.length - 500) ++ [e]).length - 500 = 1 := by
      simp [hlen]
    rw [hdlen]
    have h1 : (1 : ℕ) ≤ (es.drop (es.length - 500)).length := by omega
    rw [List.drop_append_of_le_length h1, List.drop_drop]
    have h2 : es.length - 500 + 1 ≤ es.length := by omega
    have h3 : (es ++ [e]).length - 500 = es.length - 500 + 1 := by simp; omega
    rw [h3, List.drop_append_of_le_length h2]

theorem foldl_enqueue_eq_drop (es : List PyEvent) :
    es.foldl enqueue [] = es.drop (es.length - 500) := by
  induction es using List.reverseRecOn with
  | nil => simp
  | append_singleton es e ih =>
    rw [List.foldl_append, List.foldl_cons, List.foldl_nil, ih, enqueue_drop_eq]

theorem foldl_enqueue_short (es : List PyEvent) (h : es.length ≤ 500) :
    es.foldl enqueue [] = es := by
  rw [foldl_enqueue_eq_drop]
  have : es.length - 500 = 0 := by omega
  simp [this]

/- ───────────────────────── claim theorems ───────────────────────── -/

/-- Claim C2: starting from the empty ingestion queue, any sequence of
enqueues leaves at most 500 events in the queue, and the queue is exactly
the most recent 500 enqueued events in arrival order (the
`es.drop (es.length - 500)` suffix): the oldest entries are evicted
first. -/
theorem queue_capacity (es : List PyEvent) :
    (es.foldl enqueue []).length ≤ 500 ∧
    es.foldl enqueue [] = es.drop (es.length - 500) := by
  refine ⟨?_, foldl_enqueue_eq_drop es⟩
  rw [foldl_enqueue_eq_drop, List.length_drop]
  omega

/-- Claim C3: for a queue holding the (at most 500) events enqueued so
far, `drain_events` returns exactly those events in arrival order, leaves
the queue empty, and an immediately following `drain_events` returns the
empty list. -/
theorem drain_semantics (es : List PyEvent) (h : es.length ≤ 500) :
    (drain_events (es.foldl enqueue [])).1 = es ∧
    (drain_events (es.foldl enqueue [])).2 = [] ∧
    (drain_events (drain_events (es.foldl enqueue [])).2).1 = [] := by
  refine ⟨?_, rfl, rfl⟩
  rw [foldl_enqueue_short es h, drain_events]

/-- Witness for C3 at a concrete two-event queue. -/
theorem drain_semantics_witness :
    ([pyEvA, pyEvB].length ≤ 500) ∧
    ((drain_events ([pyEvA, pyEvB].foldl enqueue [])).1 = [pyEvA, pyEvB] ∧
     (drain_events ([pyEvA, pyEvB].foldl enqueue [])).2 = [] ∧
     (drain_events (drain_events ([pyEvA, pyEvB].foldl enqueue [])).2).1 = []) :=
  ⟨by simp, drain_semantics [pyEvA, pyEvB] (by simp)⟩

/-- Claim C5 (code bug): `parse_event` does return a failure value for
non-JSON input and for objects without the `event` discriminator, but a
line holding well-formed JSON that is not an object (here `[1, 2]`) makes
the Python code call `.get` on a list, raising an uncaught
`AttributeError`; inside `_handle_client` the exception escapes the
`except OSError` clause, so the remaining lines of the connection (here a
valid `{"event":"c"}` record) are silently dropped as well. -/
theorem parse_nonobject_code_bug :
    parse_event (some (JsonValue.arr [.num 1, .num 2])) = .raised "AttributeError" ∧
    handle_client loadsDemo
        ("\x7b\"event\":\"a\"\x7d\n[1, 2]\n\x7b\"event\":\"c\"\x7d\n").toList [] = [pyEvA] ∧
    parse_event none = .ok none ∧
    parse_event (some (.obj [("foo", .str "bar")])) = .ok none :=
  ⟨rfl, rfl, rfl, rfl⟩

theorem splitlinesAux_no_newline (t acc : List Char) (ht : '\n' ∉ t)
    (hne : acc ++ t ≠ []) : splitlinesAux t acc = [acc ++ t] := by
  induction t generalizing acc with
  | nil =>
    simp only [List.append_nil] at hne ⊢
    simp [splitlinesAux, hne]
  | cons c rest ih =>
    have hc : c ≠ '\n' := fun h => ht (h ▸ List.mem_cons_self c rest)
    have ht' : '\n' ∉ rest := fun h => ht (List.mem_cons_of_mem c h)
    rw [splitlinesAux, if_neg (fun h => hc h)]
    rw [ih (acc ++ [c]) ht' (by simp)]
    simp

theorem splitlinesAux_append_newline (s t acc : List Char) (ht : '\n' ∉ t)
    (hne : t ≠ []) :
    splitlinesAux (s ++ '\n' :: t) acc = splitlinesAux (s ++ ['\n']) acc ++ [t] := by
  induction s generalizing acc with
  | nil =>
    simp only [List.nil_append]
    rw [splitlinesAux, if_pos rfl, splitlinesAux, if_pos rfl, splitlinesAux]
    rw [splitlinesAux_no_newline t [] ht (by simpa using hne)]
    simp
  | cons c rest ih =>
    by_cases hc : c = '\n'
    · subst hc
      simp only [List.cons_append]
      rw [splitlinesAux, if_pos rfl, splitlinesAux, if_pos rfl, ih]
      simp
    · simp only [List.cons_append]
      rw [splitlinesAux, if_neg hc, splitlinesAux, if_neg hc, ih]

theorem processLines_append (loads : List Char → Option JsonValue)
    (ls1 ls2 : List (List Char)) (q : List PyEvent) :
    processLines loads (ls1 ++ ls2) q =
      (if (processLines loads ls1 q).2 then processLines loads ls1 q
       else processLines loads ls2 (processLines loads ls1 q).1) := by
  induction ls1 generalizing q with
  | nil => simp [processLines]
  | cons line rest ih =>
    simp only [List.cons_append, processLines, List.append_eq]
    by_cases he : (pyStrip line).isEmpty
    · simp only [he, if_true]
      exact ih q
    · simp only [he, Bool.false_eq_true, if_false]
      rcases hp : parse_event (loads (pyStrip line)) with v | exc
      · rcases v with _ | ev
        · simp only [hp]
          exact ih q
        · simp only [hp]
          exact ih (enqueue q ev)
      · simp [hp]

/-- Claim C6 (counterexample): a connection payload holding one complete
record with no terminating newline. The claim predicts the line is
ignored and nothing is enqueued; `_handle_client` splits the buffer with
`splitlines()`, which keeps the unterminated trailing segment, so the
record is decoded and enqueued. -/
theorem trailing_line_counterexample :
    handle_client loadsDemo ("\x7b\"event\":\"b\"\x7d").toList [] = [pyEvB] ∧
    ([pyEvB] : List PyEvent) ≠ [] :=
  ⟨rfl, by simp⟩

/-- Claim C6 (amended): a partial trailing line not terminated by a
newline is NOT ignored: provided no earlier line raised, it is stripped
and decoded exactly like a terminated line, after all terminated lines
have been processed. -/
theorem trailing_line_amended (loads : List Char → Option JsonValue) (s t : List Char)
    (q : List PyEvent) (ht : '\n' ∉ t) (hne : t ≠ [])
    (hab : (processLines loads (splitlines (s ++ ['\n'])) q).2 = false) :
    handle_client loads (s ++ '\n' :: t) q =
      (processLines loads [t] (handle_client loads (s ++ ['\n']) q)).1 := by
  unfold handle_client splitlines
  rw [splitlinesAux_append_newline s t [] ht hne, processLines_append]
  unfold splitlines at hab
  rw [hab]
  simp

/-- Witness for the amended C6 at a concrete two-record payload whose
second record lacks the terminator. -/
theorem trailing_line_witness :
    ('\n' ∉ ("\x7b\"event\":\"b\"\x7d").toList) ∧
    (("\x7b\"event\":\"b\"\x7d").toList ≠ []) ∧
    ((processLines loadsDemo
        (splitlines (("\x7b\"event\":\"a\"\x7d").toList ++ ['\n'])) []).2 = false) ∧
    handle_client loadsDemo
        (("\x7b\"event\":\"a\"\x7d").toList ++ '\n' :: ("\x7b\"event\":\"b\"\x7d").toList) [] =
      (processLines loadsDemo [("\x7b\"event\":\"b\"\x7d").toList]
        (handle_client loadsDemo (("\x7b\"event\":\"a\"\x7d").toList ++ ['\n']) [])).1 :=
  ⟨by decide, by decide, rfl,
   trailing_line_amended loadsDemo _ _ [] (by decide) (by decide) rfl⟩

/-- Claim C7 (counterexample): decoding the record `{"event":"x"}` — all
optional fields absent — yields an event whose `success` field is `true`,
not the `false` the claim assigns to absent boolean fields. -/
theorem event_defaults_counterexample :
    parse_event (some (.obj [("event", .str "x")])) =
      .ok (some { kind := .str "x", agent_id := .str "", agent_type := .str "",
                  description := .str "", error := .bool false, tool_name := .str "",
                  tool_input_summary := .str "", success := .bool true,
                  task_subject := .str "", timestamp := .num 0 }) ∧
    JsonValue.bool true ≠ JsonValue.bool false :=
  ⟨rfl, by intro h; injection h with h1; cases h1⟩

/-- Claim C7 (amended): for every record with a truthy `event`
discriminator — with any mix of the optional fields present or absent —
decoding succeeds, producing an event whose kind is the discriminator
value, whose present fields hold the record's values (`d.get`), and in
which each individually absent field takes its defined default: empty
string for the string fields, `false` for `error`, `true` for `success`,
and `0` for the numeric timestamp. -/
theorem event_defaults_amended (d : List (String × JsonValue)) (k : JsonValue)
    (hk : pyGet d "event" = some k) (htr : pyTruthy k = true) :
    parse_event (some (.obj d)) =
      .ok (some { kind := k,
                  agent_id := pyGetD d "agent_id" (.str ""),
                  agent_type := pyGetD d "agent_type" (.str ""),
                  description := pyGetD d "description" (.str ""),
                  error := pyGetD d "error" (.bool false),
                  tool_name := pyGetD d "tool_name" (.str ""),
                  tool_input_summary := pyGetD d "tool_input_summary" (.str ""),
                  success := pyGetD d "success" (.bool true),
                  task_subject := pyGetD d "task_subject" (.str ""),
                  timestamp := pyGetD d "timestamp" (.num 0) }) ∧
    (∀ ev, parse_event (some (.obj d)) = .ok (some ev) →
      ev.kind = k ∧
      (pyGet d "agent_id" = none → ev.agent_id = .str "") ∧
      (pyGet d "agent_type" = none → ev.agent_type = .str "") ∧
      (pyGet d "description" = none → ev.description = .str "") ∧
      (pyGet d "error" = none → ev.error = .bool false) ∧
      (pyGet d "tool_name" = none → ev.tool_name = .str "") ∧
      (pyGet d "tool_input_summary" = none → ev.tool_input_summary = .str "") ∧
      (pyGet d "success" = none → ev.success = .bool true) ∧
      (pyGet d "task_subject" = none → ev.task_subject = .str "") ∧
      (pyGet d "timestamp" = none → ev.timestamp = .num 0)) := by
  have hrec : parse_event (some (.obj d)) =
      .ok (some { kind := k,
                  agent_id := pyGetD d "agent_id" (.str ""),
                  agent_type := pyGetD d "agent_type" (.str ""),
                  description := pyGetD d "description" (.str ""),
                  error := pyGetD d "error" (.bool false),
                  tool_name := pyGetD d "tool_name" (.str ""),
                  tool_input_summary := pyGetD d "tool_input_summary" (.str ""),
                  success := pyGetD d "success" (.bool true),
                  task_subject := pyGetD d "task_subject" (.str ""),
                  timestamp := pyGetD d "timestamp" (.num 0) }) := by
    simp [parse_event, hk, htr]
  refine ⟨hrec, ?_⟩
  intro ev hev
  rw [hrec] at hev
  injection hev with h1
  injection h1 with h2
  subst h2
  refine ⟨rfl, ?_, ?_, ?_, ?_, ?_, ?_, ?_, ?_, ?_⟩ <;>
    (intro h; simp [pyGetD, h])

/-- Witness for the amended C7 at the concrete mixed record
`{"event":"tool_start","tool_name":"Bash","timestamp":1000}`: the two
present optional fields keep their values while each absent field takes
its default (`success` = true, `error` = false, strings empty). -/
theorem event_defaults_witness :
    parse_event (some (.obj dMix)) =
      .ok (some { kind := .str "tool_start", agent_id := .str "", agent_type := .str "",
                  description := .str "", error := .bool false, tool_name := .str "Bash",
                  tool_input_summary := .str "", success := .bool true,
                  task_subject := .str "", timestamp := .num 1000 }) ∧
    (∀ ev, parse_event (some (.obj dMix)) = .ok (some ev) →
      ev.kind = .str "tool_start" ∧
      (pyGet dMix "agent_id" = none → ev.agent_id = .str "") ∧
      (pyGet dMix "agent_type" = none → ev.agent_type = .str "") ∧
      (pyGet dMix "description" = none → ev.description = .str "") ∧
      (pyGet dMix "error" = none → ev.error = .bool false) ∧
      (pyGet dMix "tool_name" = none → ev.tool_name = .str "") ∧
      (pyGet dMix "tool_input_summary" = none → ev.tool_input_summary = .str "") ∧
      (pyGet dMix "success" = none → ev.success = .bool true) ∧
      (pyGet dMix "task_subject" = none → ev.task_subject = .str "") ∧
      (pyGet dMix "timestamp" = none → ev.timestamp = .num 0)) :=
  ⟨(event_defaults_amended dMix (.str "tool_start") rfl rfl).1,
   (event_defaults_amended dMix (.str "tool_start") rfl rfl).2⟩

theorem onAgentStopFishes_append (aid : String) (err : Bool) (xs ys : List Fish) :
    onAgentStopFishes aid err (xs ++ ys) =
      ((onAgentStopFishes aid err xs).1 ++ (onAgentStopFishes aid err ys).1,
       (onAgentStopFishes aid err xs).2 + (onAgentStopFishes aid err ys).2) := by
  induction xs with
  | nil => simp [onAgentStopFishes]
  | cons f fs ih =>
    by_cases h : f.agent_id = aid <;>
      simp [onAgentStopFishes, h, ih, Nat.add_assoc]

theorem onAgentStopFishes_nomatch (aid : String) (err : Bool) (xs : List Fish)
    (h : ∀ f ∈ xs, f.agent_id ≠ aid) : onAgentStopFishes aid err xs = (xs, 0) := by
  induction xs with
  | nil => rfl
  | cons f fs ih =>
    have hf : f.agent_id ≠ aid := h f (List.mem_cons_self f fs)
    have hfs := ih (fun g hg => h g (List.mem_cons_of_mem f hg))
    simp [onAgentStopFishes, hf, hfs]

theorem findParent_decomp (aid : String) (pre post : List Fish) (m : Fish)
    (hpre : ∀ g ∈ pre, g.agent_id ≠ aid) (hm : m.agent_id = aid) :
    findParent aid (pre ++ m :: post) = some m := by
  induction pre with
  | nil => simp [findParent, hm]
  | cons f fs ih =>
    have hf : f.agent_id ≠ aid := hpre f (List.mem_cons_self f fs)
    have := ih (fun g hg => hpre g (List.mem_cons_of_mem f hg))
    simp [findParent, hf, this]

theorem updateFirstMatch_decomp (aid : String) (upd : Fish → Fish)
    (pre post : List Fish) (m : Fish)
    (hpre : ∀ g ∈ pre, g.agent_id ≠ aid) (hm : m.agent_id = aid) :
    updateFirstMatch aid upd (pre ++ m :: post) = pre ++ upd m :: post := by
  induction pre with
  | nil => simp [updateFirstMatch, hm]
  | cons f fs ih =>
    have hf : f.agent_id ≠ aid := hpre f (List.mem_cons_self f fs)
    have := ih (fun g hg => hpre g (List.mem_cons_of_mem f hg))
    simp [updateFirstMatch, hf, this]

/-- Claim C1 (counterexample): an `agent_stop` processed while the fish
created by `agent_start` is still `spawning` (entry position x = −10,
not yet on-screen) moves its status directly from `spawning` to `done`,
a transition outside the claimed set (`working` is skipped entirely). -/
theorem agent_lifecycle_counterexample :
    ((onAgentStart evStartA 8 (1/2) aqState0).fishes.map Fish.status =
      [AgentStatus.spawning]) ∧
    ((onAgentStop evStopA (onAgentStart evStartA 8 (1/2) aqState0)).fishes.map Fish.status =
      [AgentStatus.done]) :=
  ⟨rfl, rfl⟩

/-- Claim C1 (amended): the lifecycle transitions as implemented:
(1) a spawning fish becomes `working` exactly when its updated x position
has moved on-screen (x > 2); (2) an `agent_stop` sets a matching fish to
`done` (no error) or `error` (error=true) from whatever status it is in —
including directly from `spawning` when the stop arrives early — and, when
the `agent_id` matches exactly one fish, increments the session error
counter exactly once on error and not at all otherwise; (3) a `done` or
`error` fish drifts outward (direction forced to +1) and is marked
not-alive exactly when its updated x exceeds width + 10 (or it already
was not-alive); (4) the per-tick prune removes every not-alive fish. -/
theorem agent_lifecycle_amended (w eoff : ℚ) (jit em : Bool) (ech : Char)
    (aid : String) (err : Bool) (f m : Fish) (pre post : List Fish) :
    (f.status = AgentStatus.spawning →
      (updateFish w jit em eoff ech f).status =
        (if 2 < f.x + f.speed * (f.direction : ℚ) then AgentStatus.working
         else AgentStatus.spawning)) ∧
    ((stopFish false f).status = AgentStatus.done ∧
     (stopFish true f).status = AgentStatus.error) ∧
    ((∀ g ∈ pre, g.agent_id ≠ aid) → (∀ g ∈ post, g.agent_id ≠ aid) →
      m.agent_id = aid →
      (onAgentStopFishes aid err (pre ++ m :: post)).2 = if err then 1 else 0) ∧
    ((f.status = AgentStatus.done ∨ f.status = AgentStatus.error) →
      (updateFish w jit em eoff ech f).direction = 1 ∧
      ((updateFish w jit em eoff ech f).alive = false ↔
        (w + 10 < f.x + f.speed * (f.direction : ℚ) ∨ f.alive = false))) ∧
    (f.alive = false → f ∉ pruneFishes (pre ++ f :: post)) := by
  refine ⟨?_, ⟨by simp [stopFish], by simp [stopFish]⟩, ?_, ?_, ?_⟩
  · intro h
    simp [updateFish, h]
  · intro h1 h2 hm
    rw [onAgentStopFishes_append, onAgentStopFishes_nomatch aid err pre h1]
    simp [onAgentStopFishes, hm, onAgentStopFishes_nomatch aid err post h2]
  · intro h
    constructor
    · rcases h with h | h <;> simp [updateFish, h]
    · rcases h with h | h <;>
        · simp only [updateFish, h]
          by_cases hx : w + 10 < f.x + f.speed * (f.direction : ℚ) <;> simp [hx]
  · intro ha hmem
    have := (List.mem_filter.mp hmem).2
    rw [ha] at this
    cases this

/-- Witness for the amended C1 at concrete fishes: a spawning fish just
past the threshold, a done fish, a unique-match stop, and a dead fish
being pruned. -/
theorem agent_lifecycle_witness :
    ((updateFish 80 false false 0 'o' fishSpawnC).status =
      (if 2 < fishSpawnC.x + fishSpawnC.speed * (fishSpawnC.direction : ℚ)
       then AgentStatus.working else AgentStatus.spawning)) ∧
    (stopFish false fishSpawnC).status = AgentStatus.done ∧
    ((onAgentStopFishes "a1" true ([] ++ fishDoneA :: [])).2 = if true then 1 else 0) ∧
    ((updateFish 80 false false 0 'o' fishDoneA).direction = 1) ∧
    (fishDeadC ∉ pruneFishes ([] ++ fishDeadC :: [])) := by
  have H1 := agent_lifecycle_amended 80 0 false false 'o' "a1" true fishSpawnC fishDoneA [] []
  have H2 := agent_lifecycle_amended 80 0 false false 'o' "a1" true fishDoneA fishDoneA [] []
  have H3 := agent_lifecycle_amended 80 0 false false 'o' "a1" true fishDeadC fishDoneA [] []
  exact ⟨H1.1 rfl, H1.2.1.1,
    H2.2.2.1 (by simp) (by simp) rfl,
    (H2.2.2.2.1 (Or.inl rfl)).1,
    H3.2.2.2.2 rfl⟩

/-- Claim C4 (counterexample): a fish already in the terminal `done`
status receiving a second `agent_stop` with error=true is NOT left
unchanged: its status flips to `error`, its speed drops to 0.1, its
`flip` flag is set, and the session error counter is incremented again. -/
theorem terminal_stop_counterexample :
    ((onAgentStopFishes "a1" true [fishDoneA]).1.map Fish.status = [AgentStatus.error]) ∧
    fishDoneA.status = AgentStatus.done ∧
    ((onAgentStopFishes "a1" true [fishDoneA]).1.map Fish.speed = [1/10]) ∧
    ((onAgentStopFishes "a1" true [fishDoneA]).1.map Fish.flip = [true]) ∧
    (onAgentStopFishes "a1" true [fishDoneA]).2 = 1 :=
  ⟨rfl, rfl, rfl, rfl, rfl⟩

/-- Claim C4 (amended): `_on_agent_stop` never checks the current status,
so a further `agent_stop` for an already-terminal fish re-applies the stop
mutation — error=true sets `error`/`flip`/speed 0.1 and increments the
error counter again, error=false sets `done` — but the fish never
transitions back to `spawning` or `working`. -/
theorem terminal_stop_amended (aid : String) (err : Bool) (f : Fish)
    (hterm : f.status = AgentStatus.done ∨ f.status = AgentStatus.error)
    (hid : f.agent_id = aid) :
    onAgentStopFishes aid err [f] = ([stopFish err f], if err then 1 else 0) ∧
    (stopFish err f).status = (if err then AgentStatus.error else AgentStatus.done) ∧
    (stopFish err f).status ≠ AgentStatus.spawning ∧
    (stopFish err f).status ≠ AgentStatus.working := by
  refine ⟨by simp [onAgentStopFishes, hid], ?_, ?_, ?_⟩ <;>
    cases err <;> simp [stopFish]

/-- Witness for the amended C4 at the concrete terminal fish. -/
theorem terminal_stop_witness :
    (fishDoneA.status = AgentStatus.done ∨ fishDoneA.status = AgentStatus.error) ∧
    (onAgentStopFishes "a1" true [fishDoneA] =
        ([stopFish true fishDoneA], if true then 1 else 0) ∧
      (stopFish true fishDoneA).status = (if true then AgentStatus.error else AgentStatus.done) ∧
      (stopFish true fishDoneA).status ≠ AgentStatus.spawning ∧
      (stopFish true fishDoneA).status ≠ AgentStatus.working) :=
  ⟨Or.inl rfl, terminal_stop_amended "a1" true fishDoneA (Or.inl rfl) rfl⟩

/-- Claim C10 (counterexample): two working fishes share `agent_id`
"dup"; one `agent_stop{error=true}` mutates BOTH (the loop has no break),
setting both to `error` and incrementing the error counter twice — the
second fish is not left unchanged as the claim states. -/
theorem match_policy_counterexample :
    ((onAgentStopFishes "dup" true [fishB1, fishB2]).1.map Fish.status =
      [AgentStatus.error, AgentStatus.error]) ∧
    fishB2.status = AgentStatus.working ∧
    (onAgentStopFishes "dup" true [fishB1, fishB2]).2 = 2 :=
  ⟨rfl, rfl, rfl⟩

/-- Claim C10 (amended): for `tool_start` the first fish matching the
`agent_id` in iteration order is the only one mutated (later matches are
untouched); for `agent_stop` every fish with the matching `agent_id` is
mutated, with the error counter incremented once per matching fish. -/
theorem match_policy_amended (aid tool tis : String) (now : ℚ) (err : Bool)
    (pre post : List Fish) (m mainF : Fish)
    (hpre : ∀ g ∈ pre, g.agent_id ≠ aid) (hm : m.agent_id = aid) :
    onToolStartFishes aid tool tis now (pre ++ m :: post) mainF =
      (pre ++ toolStamp tool tis now m :: post, mainF) ∧
    (onAgentStopFishes aid err (pre ++ m :: post)).1 =
      pre ++ stopFish err m :: (onAgentStopFishes aid err post).1 := by
  constructor
  · unfold onToolStartFishes
    rw [findParent_decomp aid pre post m hpre hm,
      updateFirstMatch_decomp aid (toolStamp tool tis now) pre post m hpre hm]
  · rw [onAgentStopFishes_append, onAgentStopFishes_nomatch aid err pre hpre]
    simp [onAgentStopFishes, hm]

/-- Witness for the amended C10 with a duplicate `agent_id` pair. -/
theorem match_policy_witness :
    onToolStartFishes "dup" "Bash" "" 0 ([] ++ fishB1 :: [fishB2]) mainFish0 =
      ([] ++ toolStamp "Bash" "" 0 fishB1 :: [fishB2], mainFish0) ∧
    (onAgentStopFishes "dup" true ([] ++ fishB1 :: [fishB2])).1 =
      [] ++ stopFish true fishB1 :: (onAgentStopFishes "dup" true [fishB2]).1 :=
  match_policy_amended "dup" "Bash" "" 0 true [] [fishB2] fishB1 mainFish0
    (by simp) rfl

theorem onTaskCompleted_subjects (subj : String) (x : ℤ) (cs : List TaskCoral) :
    (onTaskCompleted subj x cs).map TaskCoral.subject =
      (if subj ∈ cs.map TaskCoral.subject then cs.map TaskCoral.subject
       else cs.map TaskCoral.subject ++ [subj]) := by
  induction cs with
  | nil => simp [onTaskCompleted]
  | cons c rest ih =>
    by_cases h : c.subject = subj
    · simp [onTaskCompleted, h]
    · have h2 : ¬ subj = c.subject := fun hh => h hh.symm
      by_cases hmem : subj ∈ rest.map TaskCoral.subject <;>
        simp [onTaskCompleted, h, h2, hmem, ih]

theorem onTaskCompleted_nodup (subj : String) (x : ℤ) (cs : List TaskCoral)
    (h : (cs.map TaskCoral.subject).Nodup) :
    ((onTaskCompleted subj x cs).map TaskCoral.subject).Nodup := by
  rw [onTaskCompleted_subjects]
  by_cases hmem : subj ∈ cs.map TaskCoral.subject
  · simpa [hmem] using h
  · simp [hmem, List.nodup_append, h]

theorem onTaskCompleted_fold_nodup (evs : List (String × ℤ)) (cs : List TaskCoral)
    (h : (cs.map TaskCoral.subject).Nodup) :
    ((evs.foldl (fun a p => onTaskCompleted p.1 p.2 a) cs).map TaskCoral.subject).Nodup := by
  induction evs generalizing cs with
  | nil => exact h
  | cons p rest ih =>
    exact ih (onTaskCompleted p.1 p.2 cs) (onTaskCompleted_nodup p.1 p.2 cs h)

theorem onTaskCompleted_marks (subj : String) (x : ℤ) (cs : List TaskCoral)
    (h : (cs.map TaskCoral.subject).Nodup) :
    ∀ tc ∈ onTaskCompleted subj x cs, tc.subject = subj → tc.completed = true := by
  induction cs with
  | nil =>
    intro tc htc _
    simp [onTaskCompleted] at htc
    simp [htc]
  | cons c rest ih =>
    intro tc htc hsub
    by_cases hc : c.subject = subj
    · simp only [onTaskCompleted, if_pos hc] at htc
      rcases List.mem_cons.mp htc with h1 | h1
      · simp [h1]
      · exfalso
        have hcs : c.subject ∉ rest.map TaskCoral.subject := (List.nodup_cons.mp (by simpa using h)).1
        exact hcs (hc ▸ hsub ▸ List.mem_map_of_mem TaskCoral.subject h1)
    · simp only [onTaskCompleted, if_neg hc] at htc
      rcases List.mem_cons.mp htc with h1 | h1
      · exact absurd (h1 ▸ hsub) hc
      · exact ih (List.nodup_cons.mp (by simpa using h)).2 tc h1 hsub

/-- Claim C8: task markers are keyed by subject. Starting from the empty
marker list, any sequence of `task_completed` events (subject plus oracle
x draw) leaves the subjects pairwise distinct — at most one marker per
distinct subject. Moreover on any marker list with distinct subjects, a
completion whose subject is already present changes no subject (the
existing marker is updated in place, nothing is appended), and every
marker carrying the completed subject is marked completed. -/
theorem task_marker_unique (evs : List (String × ℤ)) (corals : List TaskCoral)
    (subj : String) (x : ℤ) (hnd : (corals.map TaskCoral.subject).Nodup) :
    ((evs.foldl (fun cs p => onTaskCompleted p.1 p.2 cs) []).map TaskCoral.subject).Nodup ∧
    ((onTaskCompleted subj x corals).map TaskCoral.subject).Nodup ∧
    (subj ∈ corals.map TaskCoral.subject →
      (onTaskCompleted subj x corals).map TaskCoral.subject =
        corals.map TaskCoral.subject) ∧
    (∀ tc ∈ onTaskCompleted subj x corals, tc.subject = subj → tc.completed = true) := by
  refine ⟨onTaskCompleted_fold_nodup evs [] (by simp), onTaskCompleted_nodup subj x corals hnd,
    ?_, onTaskCompleted_marks subj x corals hnd⟩
  intro hmem
  rw [onTaskCompleted_subjects, if_pos hmem]

/-- Witness for C8: two completions of the same subject on a one-marker
list. -/
theorem task_marker_unique_witness :
    ((([("Fix auth", 3), ("Fix auth", 5)] : List (String × ℤ)).foldl
        (fun cs p => onTaskCompleted p.1 p.2 cs) []).map TaskCoral.subject).Nodup ∧
    ((onTaskCompleted "Fix auth" 5 [{ subject := "Fix auth", x := 3, completed := true }]).map
        TaskCoral.subject).Nodup ∧
    ("Fix auth" ∈ ([{ subject := "Fix auth", x := 3, completed := true }] : List TaskCoral).map
        TaskCoral.subject →
      (onTaskCompleted "Fix auth" 5 [{ subject := "Fix auth", x := 3, completed := true }]).map
          TaskCoral.subject =
        ([{ subject := "Fix auth", x := 3, completed := true }] : List TaskCoral).map
          TaskCoral.subject) ∧
    (∀ tc ∈ onTaskCompleted "Fix auth" 5 [{ subject := "Fix auth", x := 3, completed := true }],
      tc.subject = "Fix auth" → tc.completed = true) :=
  task_marker_unique [("Fix auth", 3), ("Fix auth", 5)]
    [{ subject := "Fix auth", x := 3, completed := true }] "Fix auth" 5 (by simp)

set_option maxRecDepth 10000 in
set_option maxHeartbeats 1600000 in
/-- Claim C9: provided the independent `agents_10` milestone cannot fire,
(1) when the cumulative tool-call count has reached 100 and `"tools_100"`
has not fired yet, `_check_milestones` appends exactly the batch of 5
jellyfish to the ambient creatures, records exactly one milestone log
entry, and adds `"tools_100"` to the fired set; (2) once `"tools_100"` is
in the fired set the function is the identity — the milestone can never
fire a second time in the session, however many further `tool_start`
events arrive. -/
theorem milestone_once (jd fd : Nat → ℚ × ℚ × ℚ × ℤ) (tsT nowT tsA nowA : ℚ)
    (s : AqState) (hq : agentsQuiet s) :
    (100 ≤ s.total_tools → "tools_100" ∉ s.milestones_triggered →
      ((checkMilestones jd fd tsT nowT tsA nowA s).ambient_creatures =
        s.ambient_creatures ++ (List.range 5).map (fun i => mkAmbient "jellyfish" (jd i)) ∧
       (checkMilestones jd fd tsT nowT tsA nowA s).event_log =
        pushLog s.event_log
          { timestamp := pyOrQ tsT nowT, kind := "milestone",
            detail := "100 tools reached! Ocean comes alive!" } ∧
       "tools_100" ∈ (checkMilestones jd fd tsT nowT tsA nowA s).milestones_triggered)) ∧
    ("tools_100" ∈ s.milestones_triggered →
      checkMilestones jd fd tsT nowT tsA nowA s = s) := by
  constructor
  · intro h1 h2
    have htools : checkMilestonesTools jd tsT nowT s =
        recordEvent nowT
          { kind := "milestone", timestamp := tsT,
            description := "100 tools reached! Ocean comes alive!" }
          { s with
            milestones_triggered := "tools_100" :: s.milestones_triggered,
            ambient_creatures := s.ambient_creatures ++
              (List.range 5).map (fun i => mkAmbient "jellyfish" (jd i)) } := by
      unfold checkMilestonesTools
      rw [if_pos ⟨h1, h2⟩]
    have hcond : ¬ (10 ≤ (checkMilestonesTools jd tsT nowT s).total_agents ∧
        "agents_10" ∉ (checkMilestonesTools jd tsT nowT s).milestones_triggered) := by
      rw [htools]
      rcases hq with hq | hq
      · intro hc
        exact absurd hc.1 (by simp [recordEvent]; omega)
      · intro hc
        apply hc.2
        simp [recordEvent]
        exact hq
    have hag : checkMilestonesAgents fd tsA nowA (checkMilestonesTools jd tsT nowT s) =
        checkMilestonesTools jd tsT nowT s := by
      unfold checkMilestonesAgents
      rw [if_neg hcond]
    unfold checkMilestones
    rw [hag, htools]
    refine ⟨rfl, ?_, List.mem_cons_self _ _⟩
    have htake : ("100 tools reached! Ocean comes alive!" : String).take 50 =
        "100 tools reached! Ocean comes alive!" := by decide
    simp [recordEvent, eventDetail, pyOrS, htake]
  · intro hmem
    have htools : checkMilestonesTools jd tsT nowT s = s := by
      unfold checkMilestonesTools
      rw [if_neg (fun hc => hc.2 hmem)]
    have hag : checkMilestonesAgents fd tsA nowA s = s := by
      unfold checkMilestonesAgents
      rcases hq with hq | hq
      · rw [if_neg (fun hc => absurd hc.1 (by omega))]
      · rw [if_neg (fun hc => hc.2 hq)]
    unfold checkMilestones
    rw [htools, hag]

/-- Witness for C9 at a concrete state with 100 tool calls: the milestone
fires once, and on the state that has it recorded the check is the
identity. -/
theorem milestone_once_witness :
    ((checkMilestones jdC jdC 1 2 3 4 aqC9).ambient_creatures =
      aqC9.ambient_creatures ++ (List.range 5).map (fun i => mkAmbient "jellyfish" (jdC i)) ∧
     (checkMilestones jdC jdC 1 2 3 4 aqC9).event_log =
      pushLog aqC9.event_log
        { timestamp := pyOrQ 1 2, kind := "milestone",
          detail := "100 tools reached! Ocean comes alive!" } ∧
     "tools_100" ∈ (checkMilestones jdC jdC 1 2 3 4 aqC9).milestones_triggered) ∧
    checkMilestones jdC jdC 1 2 3 4 aqC9b = aqC9b := by
  constructor
  · exact (milestone_once jdC jdC 1 2 3 4 aqC9 (Or.inl (by decide))).1
      (by decide) (by simp [aqC9, aqState0])
  · exact (milestone_once jdC jdC 1 2 3 4 aqC9b (Or.inl (by decide))).2
      (by simp [aqC9b])

end Claudium
